import Mathlib

/-!
Shallow embedding of the chapter-normalization core of pypub
(src/pypub/chapter.py): image type detection and saving, per-node image
replacement, chapter construction/validation, chapter persistence and the
Github-gist expansion of the specialized chapter factory.

External effects (the network, the local filesystem, the bs4 parser of an
already-fetched document) are modelled explicitly: the filesystem is an
association list from file names to byte contents, and the network is an
oracle record passed to the functions that perform I/O. Python exceptions
are modelled by an explicit error type `PyErr`; a function that can raise
returns `Except PyErr _`, and a function that also writes files returns the
resulting filesystem alongside.
-/

namespace Pypub

/-- Python str.endswith, computed on the character list of the string. -/
def pyEndsWith (s suffix : String) : Bool :=
  suffix.data.isSuffixOf s.data

/-- The Python slice s[-n:]: the last n characters, or the whole string
when it is shorter than n. -/
def pyTakeLast (n : Nat) (s : String) : String :=
  String.mk (s.data.drop (s.data.length - n))

/-- The characters remaining after the first occurrence of the pattern,
or none when the pattern does not occur. -/
def dropAfterFirst (pat : List Char) : List Char → Option (List Char)
  | [] => none
  | c :: rest =>
    if pat.isPrefixOf (c :: rest) then some ((c :: rest).drop pat.length)
    else dropAfterFirst pat rest

/-- The characters before the first occurrence of the pattern (the whole
list when the pattern does not occur). -/
def takeUntilFirst (pat : List Char) : List Char → List Char
  | [] => []
  | c :: rest =>
    if pat.isPrefixOf (c :: rest) then []
    else c :: takeUntilFirst pat rest

/-- Python exceptions that the embedded fragment of chapter.py can raise:
TypeError, ValueError, the custom ImageErrorException (carrying the image
url, chapter.py lines 28-33) and the custom NoUrlError (lines 23-25). -/
inductive PyErr where
  | typeError (msg : String)
  | valueError (msg : String)
  | imageError (image_url : String)
  | noUrlError
  deriving DecidableEq, Repr

/-- Filesystem model: an association list from full file names to byte
contents. Only the files the embedded functions touch are tracked. -/
def FS : Type := List (String × List UInt8)

instance : DecidableEq FS := by
  unfold FS
  infer_instance

/-- Writing (creating or truncating then writing) a file: the new binding
shadows any previous binding for the same name. -/
def setFile (fs : FS) (name : String) (content : List UInt8) : FS :=
  (name, content) :: fs.filter (fun p => p.1 != name)

/-- Reading a file: the most recent binding for the name, if any. -/
def lookupFile (fs : FS) (name : String) : Option (List UInt8) :=
  (fs.find? (fun p => p.1 == name)).map (fun p => p.2)

/-- Oracles for the effects of chapter.py image handling.
`sniff url` models the fallback of get_image_type (lines 41-47): download
the url to a temp file and classify it with imghdr.what; `none` covers both
an IOError during retrieval (caught, returning None) and imghdr failing to
recognize the format. `localFile url` models os.path.exists on the url plus
the bytes shutil.copy would copy (lines 69-70): `some bytes` when the url is
an existing local path. `httpGet url` models requests.get(url).content
(lines 78-82): `.error ()` when the request raises (requests exceptions
derive from IOError, caught at line 85). -/
structure NetEnv where
  sniff : String → Option String
  localFile : String → Option (List UInt8)
  httpGet : String → Except Unit (List UInt8)

/-- get_image_type (chapter.py lines 36-47). The suffix list in the source
is the Python literal list with an accidental string concatenation,
so its three elements are the strings jpg, jpeg and .gif.png; a url whose
end matches none of them falls through to the sniffing fallback. -/
def get_image_type (sniff : String → Option String) (url : String) : Option String :=
  if pyEndsWith url "jpg" then some "jpg"
  else if pyEndsWith url "jpeg" then some "jpeg"
  else if pyEndsWith url ".gif.png" then some ".gif.png"
  else sniff url

/-- save_image (chapter.py lines 50-87). Type detection failure raises
ImageErrorException before any file is touched. A local source file is
copied. Otherwise the destination file is opened for writing (created or
truncated, i.e. written empty) BEFORE the HTTP request is issued; a
request failure (IOError) is re-raised as ImageErrorException after the
with-block has closed the already-created file. os.path.join is the posix
join with a slash. -/
def save_image (env : NetEnv) (image_url image_directory image_name : String)
    (fs : FS) : Except PyErr String × FS :=
  match get_image_type env.sniff image_url with
  | none => (.error (.imageError image_url), fs)
  | some image_type =>
    let full := image_directory ++ "/" ++ image_name ++ "." ++ image_type
    match env.localFile image_url with
    | some bytes => (.ok image_type, setFile fs full bytes)
    | none =>
      let fs1 := setFile fs full []
      match env.httpGet image_url with
      | .ok content => (.ok image_type, setFile fs1 full content)
      | .error _ => (.error (.imageError image_url), fs1)

/-- An img element of the content tree, reduced to the one attribute the
image rewrite reads and writes: its optional src. -/
structure ImgTag where
  src : Option String
  deriving DecidableEq, Repr

/-- A Python value passed as the image_tag argument of _replace_image:
either a bs4 Tag or a value of some other type, carrying the rendering of
str(type(value)) used in the TypeError message. -/
inductive PyVal where
  | tag (t : ImgTag)
  | other (typeName : String)
  deriving DecidableEq, Repr

/-- _replace_image (chapter.py lines 90-120). A non-Tag argument fails the
isinstance assert and raises TypeError (lines 103-106), outside any
handler. For a Tag: if ebook_folder/images does not exist the assert at
line 111 becomes ValueError; otherwise save_image runs, an
ImageErrorException from it (or a TypeError raised inside the try) is
caught and the tag is decomposed (removed, result `some none`), and on
success the src attribute is rewritten to images/name.ext.
`imagesExist` models os.path.exists(ebook_folder/images). The outcome is
`.ok (some t)` for a surviving (possibly rewritten) tag, `.ok none` for a
decomposed tag, `.error e` for a propagated exception. -/
def replace_image (env : NetEnv) (imagesExist : Bool) (image_url : String)
    (image_tag : PyVal) (ebook_folder : String) (image_name : String)
    (fs : FS) : Except PyErr (Option ImgTag) × FS :=
  match image_tag with
  | .other typeName =>
    (.error (.typeError ("image_tag cannot be of type " ++ typeName)), fs)
  | .tag t =>
    if imagesExist then
      match save_image env image_url (ebook_folder ++ "/images") image_name fs with
      | (.ok ext, fs2) =>
        (.ok (some { t with src := some ("images/" ++ image_name ++ "." ++ ext) }), fs2)
      | (.error e, fs2) =>
        match e with
        | .imageError _ => (.ok none, fs2)
        | .typeError _ => (.ok none, fs2)
        | e2 => (.error e2, fs2)
    else
      (.error (.valueError (ebook_folder ++ " doesn\x27t exist or doesn\x27t contain a subdirectory images")), fs)

/-- The loop body of Chapter._replace_images_in_chapter (chapter.py lines
202-205) over the (tag, url) pairs of _get_image_urls (lines 193-200):
img nodes without a src attribute are filtered out (left in the tree
untouched); each img node with a src has its url joined against the
chapter url and is passed to _replace_image with a fresh generated name
(uuid4, modelled by `uuidGen` applied to a running index). The first
propagated exception aborts the loop. -/
def replace_images_go (env : NetEnv) (imagesExist : Bool) (ebook_folder : String)
    (urljoinFn : Option String → String → String) (base : Option String)
    (uuidGen : Nat → String) : Nat → List ImgTag → FS → Except PyErr (List ImgTag) × FS
  | _, [], fs => (.ok [], fs)
  | i, t :: rest, fs =>
    match t.src with
    | none =>
      match replace_images_go env imagesExist ebook_folder urljoinFn base uuidGen i rest fs with
      | (.ok l, fs2) => (.ok (t :: l), fs2)
      | (.error e, fs2) => (.error e, fs2)
    | some s =>
      match replace_image env imagesExist (urljoinFn base s) (.tag t) ebook_folder (uuidGen i) fs with
      | (.error e, fs2) => (.error e, fs2)
      | (.ok none, fs2) => replace_images_go env imagesExist ebook_folder urljoinFn base uuidGen (i + 1) rest fs2
      | (.ok (some t2), fs2) =>
        match replace_images_go env imagesExist ebook_folder urljoinFn base uuidGen (i + 1) rest fs2 with
        | (.ok l, fs3) => (.ok (t2 :: l), fs3)
        | (.error e, fs3) => (.error e, fs3)

/-- Chapter._replace_images_in_chapter (chapter.py lines 202-209), viewed
as the transformation of the list of img nodes of the content tree. -/
def replace_images_in_chapter (env : NetEnv) (imagesExist : Bool)
    (ebook_folder : String) (urljoinFn : Option String → String → String)
    (base : Option String) (uuidGen : Nat → String) (nodes : List ImgTag)
    (fs : FS) : Except PyErr (List ImgTag) × FS :=
  replace_images_go env imagesExist ebook_folder urljoinFn base uuidGen 0 nodes fs

/-- Python html.escape with quote=True (used for Chapter.html_title at
chapter.py line 153, since the cgi import fails on current Python):
replaces ampersand, angle brackets, the double quote and the single
quote by their entities. The sequential str.replace calls of html.escape
are equivalent to this per-character map because no replacement string
contains a character replaced later. -/
def htmlEscape (s : String) : String :=
  s.data.foldr (fun c acc =>
    (match c with
     | '&' => "&amp;"
     | '<' => "&lt;"
     | '>' => "&gt;"
     | '"' => "&quot;"
     | '\x27' => "&#x27;"
     | _ => String.singleton c) ++ acc) ""

/-- The stored state of a Chapter (chapter.py lines 144-153): content,
title, optional url, and the escaped title computed at construction.
The parsed content tree is derived from content and not stored separately
here; the image rewrite above acts on its list of img nodes. -/
structure ChapterS where
  content : String
  title : String
  url : Option String
  html_title : String
  deriving DecidableEq, Repr

/-- Chapter.__init__ restricted to string arguments (chapter.py lines
144-153 with _validate_input_types, lines 169-185): the isinstance checks
pass for strings; an empty title raises ValueError first, then an empty
content raises ValueError; otherwise the fields are stored unchanged and
html_title is the escaped title. -/
def chapter_init (content title : String) (url : Option String) : Except PyErr ChapterS :=
  if title = "" then .error (.valueError "title cannot be empty string")
  else if content = "" then .error (.valueError "content cannot be empty string")
  else .ok { content := content, title := title, url := url, html_title := htmlEscape title }

/-- Chapter.__init__ with a possibly-None title (Python None modelled as
`none`): _validate_input_types asserts isinstance(title, str) (chapter.py
lines 174-177), so a None title raises TypeError before the emptiness
checks. The content argument is a genuine string here, so its isinstance
check passes. -/
def chapter_init_py (content : String) (title : Option String) (url : Option String) :
    Except PyErr ChapterS :=
  match title with
  | none => .error (.typeError "title must be a string")
  | some t => chapter_init content t url

/-- Chapter.write (chapter.py lines 155-167): the assert compares the
Python slice file_name[-6:] (the last six characters, or the whole string
when shorter - pyTakeLast matches this) with the extension; a
mismatch becomes ValueError before any file is opened. On success the
content is written to the named file as its UTF-8 bytes. -/
def chapter_write (ch : ChapterS) (file_name : String) (fs : FS) :
    Except PyErr Unit × FS :=
  if pyTakeLast 6 file_name = ".xhtml" then
    (.ok (), setFile fs file_name ch.content.toUTF8.data.toList)
  else
    (.error (.valueError "filename must end with .xhtml"), fs)

/-- Chapter.get_url (chapter.py lines 187-191): the stored url when
present, NoUrlError otherwise. -/
def get_url (ch : ChapterS) : Except PyErr String :=
  match ch.url with
  | some u => .ok u
  | none => .error .noUrlError

/-- Model of the bs4 title lookup in ChapterFactory.create_chapter_from_string
(chapter.py lines 303-305): BeautifulSoup(html_string).title is None when
the document has no title element (so .string raises AttributeError,
caught at line 306); for a present title element, .string is the single
text child, which is None for an empty element. Result: `none` when there
is no title tag, `some none` for an empty title tag, `some (some s)` for a
title tag with text s. -/
def find_title_tag (html_string : String) : Option (Option String) :=
  match dropAfterFirst "<title>".data html_string.data with
  | none => none
  | some rest =>
    let inner := takeUntilFirst "</title>".data rest
    some (if inner = [] then none else some (String.mk inner))

/-- ChapterFactory.create_chapter_from_string (chapter.py lines 281-308).
The clean function and the html-to-xhtml converter are out-of-scope
external dependencies, passed as function parameters. When no title is
supplied, the title element text is extracted; only an absent title tag
(AttributeError on None.string) falls back to the fixed default, while an
empty title element yields Python None, handed to the Chapter constructor
as-is. -/
def create_chapter_from_string_model (cleanFn toXhtmlFn : String → String)
    (html_string : String) (url : Option String) (title : Option String) :
    Except PyErr ChapterS :=
  let clean_xhtml := toXhtmlFn (cleanFn html_string)
  let t : Option String :=
    match title with
    | some t0 => some t0
    | none =>
      match find_title_tag html_string with
      | none => some "Ebook Chapter"
      | some s => s
  chapter_init_py clean_xhtml t url

/-- Python right-alignment of a string in a field of the given width with
the default space fill, as done by the format spec in process_gist. -/
def pyRJust (width : Nat) (s : String) : String :=
  if width ≤ s.length then s
  else String.mk (List.replicate (width - s.length) ' ') ++ s

/-- One rendered line of process_gist (chapter.py line 376): the line
number right-aligned to the given width, a colon, a space, the code. -/
def format_gist_line (width : Nat) (line code : String) : String :=
  pyRJust width line ++ ": " ++ code

/-- The rendering loop of ChapterGithubGistFactory.process_gist
(chapter.py lines 367-377) on the extracted (line-number, code) pairs:
last_line ends as the line-number string of the last row, and every line
is formatted with width len(last_line) + 1. The result is the list of
lines of the pre block (joined with the platform line separator in the
source). When there are no rows the width is never evaluated. -/
def process_gist (pairs : List (String × String)) : List String :=
  let width : Nat :=
    match pairs.getLast? with
    | some last => last.1.length + 1
    | none => 0
  "<pre style=\"font-size: 80%;\">" ::
    (pairs.map (fun p => format_gist_line width p.1 p.2) ++ ["</pre>"])

/-- A script element as seen by the loop of
ChapterGithubGistFactory.create_chapter_from_string: only its optional
src attribute matters (a missing src raises KeyError, caught with
continue). -/
structure ScriptTag where
  src : Option String
  deriving DecidableEq, Repr

/-- The gist host constant (chapter.py line 312). -/
def GIST_NETLOC : String := "gist.github.com"

/-- The netloc of urllib.parse.urlparse, for the url shapes the gist scan
meets: the host part after the scheme separator (or after a leading
double slash), up to the first slash, question mark or hash; empty when
the url has no netloc. -/
def urlparse_netloc (url : String) : String :=
  match dropAfterFirst "://".data url.data with
  | some rest => String.mk (rest.takeWhile (fun c => !(c == '/' || c == '?' || c == '#')))
  | none =>
    if "//".data.isPrefixOf url.data then
      String.mk ((url.data.drop 2).takeWhile (fun c => !(c == '/' || c == '?' || c == '#')))
    else ""

/-- The value of the variable url after the script loop of
ChapterGithubGistFactory.create_chapter_from_string (chapter.py lines
336-343), which is then passed to super().create_chapter_from_string at
line 344 and stored as the chapter url. The statement url = script[src]
runs BEFORE the netloc test, so every script that has a src attribute
overwrites url - also when its netloc is not the gist host and the
iteration continues; a script without src leaves url unchanged
(KeyError, caught). -/
def gist_from_string_url (scripts : List ScriptTag) (url : Option String) : Option String :=
  scripts.foldl
    (fun u s =>
      match s.src with
      | none => u
      | some v => some v)
    url

/-- The oracle of an environment where every remote fetch fails and no
image url is a local path: sniffing yields nothing (the retrieval inside
get_image_type raises IOError), and every HTTP GET raises. -/
def envUnreachable : NetEnv :=
  { sniff := fun _ => none, localFile := fun _ => none, httpGet := fun _ => .error () }

/-- Claim C1 counterexample: on the three rows (10, a), (11, b), (12, c),
process_gist does NOT render the lines 10: a, 11: b, 12: c with the line
numbers right-aligned to width 2 (the digit count of the last line
number): the format width in the source is len(last_line) + 1 = 3, so
every rendered line carries an extra leading space. -/
theorem process_gist_width_counterexample :
    process_gist [("10", "a"), ("11", "b"), ("12", "c")] ≠
      ["<pre style=\"font-size: 80%;\">", "10: a", "11: b", "12: c", "</pre>"] := by
  decide

/-- Claim C1 (amended): on the rows (10, a), (11, b), (12, c), process_gist
renders, inside the pre block, exactly the three lines given by
right-aligning each line number to width (digit count of the last line
number) + 1 = 3, i.e. each of the two-digit numbers is preceded by one
space. -/
theorem process_gist_width_amended :
    process_gist [("10", "a"), ("11", "b"), ("12", "c")] =
      ["<pre style=\"font-size: 80%;\">", " 10: a", " 11: b", " 12: c", "</pre>"] := by
  decide

/-- Claim C2: divergence witness. A script tag whose src is on a non-gist
host (example.com, not gist.github.com) still overwrites the url variable
in the scan loop, so the url handed to the standard from-string pipeline -
and stored as the chapter url - is the src of the script, not the url the
caller supplied. -/
theorem gist_url_clobbered :
    urlparse_netloc "https://example.com/x.js" ≠ GIST_NETLOC ∧
    gist_from_string_url [{ src := some "https://example.com/x.js" }] (some "http://orig/page") =
      some "https://example.com/x.js" ∧
    gist_from_string_url [{ src := some "https://example.com/x.js" }] (some "http://orig/page") ≠
      some "http://orig/page" := by
  refine ⟨by decide, rfl, by decide⟩

/-- Claim C3 counterexample: fetching http://h/x.jpg in an environment
where every request fails makes save_image raise the image error, yet the
destination file dir/img.jpg exists afterwards (created empty by the open
that precedes the request). -/
theorem save_image_leftover_counterexample :
    (save_image envUnreachable "http://h/x.jpg" "dir" "img" []).1 =
      .error (.imageError "http://h/x.jpg") ∧
    lookupFile (save_image envUnreachable "http://h/x.jpg" "dir" "img" []).2 "dir/img.jpg" =
      some [] := by
  exact ⟨rfl, rfl⟩

/-- Claim C3 (amended): when save_image fails, either it failed during
type detection and the filesystem is unchanged, or type detection had
succeeded with some extension t and an empty file
directory/name.t is left behind by the open that preceded the failed
request. -/
theorem save_image_failure_fs (env : NetEnv) (url dir name : String) (fs : FS) (e : PyErr)
    (h : (save_image env url dir name fs).1 = .error e) :
    (save_image env url dir name fs).2 = fs ∨
    ∃ t, get_image_type env.sniff url = some t ∧
      (save_image env url dir name fs).2 = setFile fs (dir ++ "/" ++ name ++ "." ++ t) [] := by
  unfold save_image at h ⊢
  cases hgt : get_image_type env.sniff url with
  | none => simp [hgt]
  | some t =>
    cases hlf : env.localFile url with
    | some bytes => simp [hgt, hlf] at h
    | none =>
      cases hhg : env.httpGet url with
      | ok c => simp [hgt, hlf, hhg] at h
      | error u => right; exact ⟨t, rfl, by simp [hgt, hlf, hhg]⟩

/-- Witness for the amended claim C3, at a url whose type detection fails
in the unreachable environment: the failing save_image leaves the
filesystem unchanged. -/
theorem save_image_failure_fs_witness :
    (save_image envUnreachable "http://h/y.png" "dir" "img" []).2 = [] ∨
    ∃ t, get_image_type envUnreachable.sniff "http://h/y.png" = some t ∧
      (save_image envUnreachable "http://h/y.png" "dir" "img" []).2 =
        setFile [] ("dir" ++ "/" ++ "img" ++ "." ++ t) [] :=
  save_image_failure_fs envUnreachable "http://h/y.png" "dir" "img" []
    (.imageError "http://h/y.png") rfl

/-- Claim C4 counterexample: calling the per-node replacement with a
non-Tag value raises a TypeError that propagates (the result is an error,
not a normal return with the node removed). -/
theorem replace_image_nontag_counterexample :
    (replace_image envUnreachable true "http://h/x.jpg" (.other "str") "book" "img" []).1 =
      .error (.typeError "image_tag cannot be of type str") := by
  exact rfl

/-- Claim C4 (amended): for every input that is not a bs4 Tag,
_replace_image raises a TypeError naming the type of the input, before
touching anything; the node is not removed and the filesystem is
untouched. -/
theorem replace_image_nontag_raises (env : NetEnv) (imagesExist : Bool)
    (image_url typeName ebook_folder image_name : String) (fs : FS) :
    replace_image env imagesExist image_url (.other typeName) ebook_folder image_name fs =
      (.error (.typeError ("image_tag cannot be of type " ++ typeName)), fs) := by
  exact rfl

/-- Claim C5: a url ending in .png or .gif that does not end in jpg, jpeg
or the eight-character literal .gif.png misses every entry of the suffix
fast path, so get_image_type falls back to fetching and sniffing the
resource. -/
theorem get_image_type_png_gif_fallback (sniff : String → Option String) (url : String)
    (_hpg : pyEndsWith url ".png" = true ∨ pyEndsWith url ".gif" = true)
    (h1 : pyEndsWith url "jpg" = false) (h2 : pyEndsWith url "jpeg" = false)
    (h3 : pyEndsWith url ".gif.png" = false) :
    get_image_type sniff url = sniff url := by
  unfold get_image_type
  simp [h1, h2, h3]

/-- Witness for claim C5 at the url http://x/a.png with a sniffing oracle
classifying it as png. -/
theorem get_image_type_png_gif_fallback_witness :
    get_image_type (fun _ => some "png") "http://x/a.png" =
      (fun _ => (some "png" : Option String)) "http://x/a.png" :=
  get_image_type_png_gif_fallback (fun _ => some "png") "http://x/a.png"
    (Or.inl (by decide)) (by decide) (by decide) (by decide)

/-- In an environment where nothing is reachable, save_image always fails
with the image error of the requested url: either type detection already
fails (sniffing needs a fetch), or the subsequent request raises. -/
theorem save_image_unreachable_fails (env : NetEnv) (_hs : ∀ u, env.sniff u = none)
    (hg : ∀ u, env.httpGet u = .error ()) (hl : ∀ u, env.localFile u = none)
    (url dir name : String) (fs : FS) :
    (save_image env url dir name fs).1 = .error (.imageError url) := by
  unfold save_image
  cases hgt : get_image_type env.sniff url with
  | none => rfl
  | some t => simp [hl, hg]

/-- In an unreachable environment, _replace_image on a genuine Tag with
the images subdirectory present always decomposes the tag (outcome
`some none`): the ImageErrorException of save_image is caught. -/
theorem replace_image_unreachable_fst (env : NetEnv) (hs : ∀ u, env.sniff u = none)
    (hg : ∀ u, env.httpGet u = .error ()) (hl : ∀ u, env.localFile u = none)
    (url : String) (t : ImgTag) (folder name : String) (fs : FS) :
    (replace_image env true url (.tag t) folder name fs).1 = .ok none := by
  unfold replace_image
  rcases hS : save_image env url (folder ++ "/images") name fs with ⟨r, fs2⟩
  have h1 : r = .error (.imageError url) := by
    have h2 := save_image_unreachable_fails env hs hg hl url (folder ++ "/images") name fs
    rw [hS] at h2
    exact h2
  subst h1
  simp [hS]

/-- The img-node list transformation of the rewrite loop when every fetch
fails: no exception escapes, every src-bearing node is dropped, every
node without src survives, for every starting index and filesystem. -/
theorem replace_images_go_all_fail (env : NetEnv) (hs : ∀ u, env.sniff u = none)
    (hg : ∀ u, env.httpGet u = .error ()) (hl : ∀ u, env.localFile u = none)
    (folder : String) (uj : Option String → String → String) (base : Option String)
    (uuidGen : Nat → String) :
    ∀ (nodes : List ImgTag) (i : Nat) (fs : FS),
      (replace_images_go env true folder uj base uuidGen i nodes fs).1 =
        .ok (nodes.filter (fun t => t.src.isNone)) := by
  intro nodes
  induction nodes with
  | nil => intro i fs; rfl
  | cons t rest ih =>
    intro i fs
    cases ht : t.src with
    | none =>
      rcases hrec : replace_images_go env true folder uj base uuidGen i rest fs with ⟨r, fs2⟩
      have h2 := ih i fs
      rw [hrec] at h2
      simp only at h2
      subst h2
      simp [replace_images_go, ht, hrec, List.filter, Option.isNone]
    | some s =>
      rcases hR : replace_image env true (uj base s) (.tag t) folder (uuidGen i) fs with ⟨r, fs2⟩
      have h1 : r = .ok none := by
        have h2 := replace_image_unreachable_fst env hs hg hl (uj base s) t folder (uuidGen i) fs
        rw [hR] at h2
        exact h2
      subst h1
      have h3 := ih (i + 1) fs2
      simp [replace_images_go, ht, hR, List.filter, Option.isNone, h3]

/-- Splitting the img nodes into the src-less survivors and the
src-bearing (here: all-failing) ones accounts for every node. -/
theorem filter_src_none_some_length (nodes : List ImgTag) :
    (nodes.filter (fun t => t.src.isNone)).length +
      (nodes.filter (fun t => t.src.isSome)).length = nodes.length := by
  induction nodes with
  | nil => rfl
  | cons t rest ih =>
    cases ht : t.src <;> simp [List.filter_cons, ht] <;> omega

/-- Claim C6: when the images subdirectory exists and every fetch fails
(unreachable hosts: nothing sniffable, nothing local, every GET raising),
the chapter image rewrite raises no exception and returns the img-node
list with exactly the src-bearing nodes removed, so the img-node count
decreases by exactly the number of failed resolutions. -/
theorem replace_images_all_fail (env : NetEnv) (hs : ∀ u, env.sniff u = none)
    (hg : ∀ u, env.httpGet u = .error ()) (hl : ∀ u, env.localFile u = none)
    (folder : String) (uj : Option String → String → String) (base : Option String)
    (uuidGen : Nat → String) (nodes : List ImgTag) (fs : FS) :
    (replace_images_in_chapter env true folder uj base uuidGen nodes fs).1 =
      .ok (nodes.filter (fun t => t.src.isNone)) ∧
    (nodes.filter (fun t => t.src.isNone)).length +
      (nodes.filter (fun t => t.src.isSome)).length = nodes.length :=
  ⟨replace_images_go_all_fail env hs hg hl folder uj base uuidGen nodes 0 fs,
   filter_src_none_some_length nodes⟩

/-- Witness for claim C6: a tree with two src-bearing img nodes and one
src-less img node, rewritten in the unreachable environment, keeps
exactly the src-less node and raises nothing. -/
theorem replace_images_all_fail_witness :
    (replace_images_in_chapter envUnreachable true "book" (fun _ s => s) none
        (fun _ => "n") [⟨some "http://h/a.jpg"⟩, ⟨none⟩, ⟨some "http://h/b.png"⟩] []).1 =
      .ok ([⟨some "http://h/a.jpg"⟩, ⟨none⟩, ⟨some "http://h/b.png"⟩].filter
        (fun t : ImgTag => t.src.isNone)) ∧
    (([⟨some "http://h/a.jpg"⟩, ⟨none⟩, ⟨some "http://h/b.png"⟩] : List ImgTag).filter
        (fun t => t.src.isNone)).length +
      (([⟨some "http://h/a.jpg"⟩, ⟨none⟩, ⟨some "http://h/b.png"⟩] : List ImgTag).filter
        (fun t => t.src.isSome)).length =
      ([⟨some "http://h/a.jpg"⟩, ⟨none⟩, ⟨some "http://h/b.png"⟩] : List ImgTag).length :=
  replace_images_all_fail envUnreachable (fun _ => rfl) (fun _ => rfl) (fun _ => rfl)
    "book" (fun _ s => s) none (fun _ => "n")
    [⟨some "http://h/a.jpg"⟩, ⟨none⟩, ⟨some "http://h/b.png"⟩] []

/-- Claim C7: for string arguments, chapter construction succeeds exactly
when both title and content are non-empty; on success the stored title
and content equal the arguments unchanged (and html_title is the escaped
title), and an empty title or empty content raises the invalid-input
ValueError. -/
theorem chapter_init_spec (c t : String) (u : Option String) :
    (t ≠ "" → c ≠ "" → chapter_init c t u =
      .ok { content := c, title := t, url := u, html_title := htmlEscape t }) ∧
    (t = "" → chapter_init c t u = .error (.valueError "title cannot be empty string")) ∧
    (t ≠ "" → c = "" → chapter_init c t u =
      .error (.valueError "content cannot be empty string")) := by
  refine ⟨fun h1 h2 => ?_, fun h1 => ?_, fun h1 h2 => ?_⟩ <;>
    simp [chapter_init, h1, *]

/-- Witness for claim C7: a concrete successful construction stores the
arguments unchanged, and a concrete empty title is rejected. -/
theorem chapter_init_spec_witness :
    chapter_init "<p>x</p>" "T" none =
      .ok { content := "<p>x</p>", title := "T", url := none, html_title := htmlEscape "T" } ∧
    chapter_init "<p>x</p>" "" none = .error (.valueError "title cannot be empty string") :=
  ⟨(chapter_init_spec "<p>x</p>" "T" none).1 (by decide) (by decide),
   (chapter_init_spec "<p>x</p>" "" none).2.1 rfl⟩

/-- Claim C8: writing a chapter to a file name whose last six characters
are not .xhtml raises the ValueError with the filesystem untouched (no
file created); a name ending in .xhtml gets the UTF-8 bytes of the
content written under that name. -/
theorem chapter_write_spec (ch : ChapterS) (file_name : String) (fs : FS) :
    (pyTakeLast 6 file_name = ".xhtml" →
      chapter_write ch file_name fs =
        (.ok (), setFile fs file_name ch.content.toUTF8.data.toList)) ∧
    (pyTakeLast 6 file_name ≠ ".xhtml" →
      chapter_write ch file_name fs =
        (.error (.valueError "filename must end with .xhtml"), fs)) := by
  constructor <;> intro h <;> simp [chapter_write, h]

/-- Witness for claim C8: a concrete .xhtml name is written, a concrete
.txt name is rejected with the filesystem unchanged. -/
theorem chapter_write_spec_witness :
    chapter_write { content := "c", title := "t", url := none, html_title := "t" }
        "ch.xhtml" [] =
      (.ok (), setFile [] "ch.xhtml" (String.toUTF8 "c").data.toList) ∧
    chapter_write { content := "c", title := "t", url := none, html_title := "t" }
        "ch.txt" [] =
      (.error (.valueError "filename must end with .xhtml"), []) :=
  ⟨(chapter_write_spec { content := "c", title := "t", url := none, html_title := "t" }
      "ch.xhtml" []).1 (by decide),
   (chapter_write_spec { content := "c", title := "t", url := none, html_title := "t" }
      "ch.txt" []).2 (by decide)⟩

/-- Claim C9: on a chapter built by the constructor, get_url returns
exactly the url supplied at construction when one was supplied, and
raises NoUrlError when none was; neither branch returns a placeholder. -/
theorem get_url_spec (c t : String) (u : Option String) (ch : ChapterS)
    (hinit : chapter_init c t u = .ok ch) :
    (∀ v, u = some v → get_url ch = .ok v) ∧
    (u = none → get_url ch = .error .noUrlError) := by
  have hu : ch.url = u := by
    unfold chapter_init at hinit
    by_cases h1 : t = ""
    · simp [h1] at hinit
    · by_cases h2 : c = ""
      · simp [h1, h2] at hinit
      · simp [h1, h2] at hinit
        rw [← hinit]
  constructor
  · intro v hv
    unfold get_url
    rw [hu, hv]
  · intro hv
    unfold get_url
    rw [hu, hv]

/-- Witness for claim C9: a chapter constructed with a concrete url
returns exactly that url from get_url. -/
theorem get_url_spec_witness :
    get_url { content := "c", title := "t", url := some "http://e/p",
              html_title := htmlEscape "t" } = .ok "http://e/p" :=
  (get_url_spec "c" "t" (some "http://e/p")
      { content := "c", title := "t", url := some "http://e/p",
        html_title := htmlEscape "t" } rfl).1 "http://e/p" rfl

/-- Claim C10: a source string containing an empty title element and no
supplied title makes the from-string factory hand the Python None title
to the Chapter constructor (no fallback to the fixed default), which
rejects it with the TypeError of the isinstance check. -/
theorem infer_empty_title_type_error (cleanFn toXhtmlFn : String → String)
    (url : Option String) :
    create_chapter_from_string_model cleanFn toXhtmlFn "<h1>x</h1><title></title>" url none =
      .error (.typeError "title must be a string") := by
  exact rfl

end Pypub
